import Mathlib

/-!
Crash screen, context page (`src/crash_screen/pages/page_context.c`)

A shallow embedding of the context page of the crash screen: the static
tables, the three lookup functions (`get_cause_desc`, `get_fpcsr_desc`,
`get_thread_name_from_id`), the register and float-register printers and the
page's draw and input hooks.

Conventions of the embedding:

* `u32` values are natural numbers; where the C code adds to a `u32` the sum
  is reduced with `u32` (modulo `2^32`), a difference is taken with `u32_sub`,
  and a 64-bit `Register` passed for a `Word` parameter is reduced with `u32`.
* A `const char*` result is an `Option String`; `none` is `NULL`.
* Drawing is the list of calls made to the external printing primitives, in
  program order (`Draw`).  `osWritebackDCacheAll()` draws nothing and is left
  out.
* Everything `page_context.c` takes from headers and modules other than
  itself is either a field of `Externals` or a definition whose comment says
  so.
-/

namespace PageContext

/-! ## Machine integers and macros -/

/-- Reduction of a natural number to a `u32` value. -/
def u32 (n : Nat) : Nat := n % 2 ^ 32

/-- Subtraction of `u32` values: it wraps below zero. -/
def u32_sub (a b : Nat) : Nat := (a + (2 ^ 32 - b % 2 ^ 32)) % 2 ^ 32

/-- The macro `BIT(i)`: `(1 << (i))`. -/
def BIT (i : Nat) : Nat := 1 <<< i

/-- The macro `BITMASK(size)`: `(BIT(size) - 1)`. -/
def BITMASK (size : Nat) : Nat := BIT size - 1

/-- The macro `ARRAY_COUNT(arr)`. -/
def ARRAY_COUNT {α : Type} (arr : List α) : Nat := arr.length

/-- `CAUSE_EXCSHIFT` of the R4300 header: the exception code sits at bit 2 of
the CAUSE register. -/
def CAUSE_EXCSHIFT : Nat := 2

/-- The macro `EXC_CODE(x)` of the R4300 header: `((x) << 2)`. -/
def EXC_CODE (x : Nat) : Nat := x <<< CAUSE_EXCSHIFT

/-- `EXC_WATCH`, the CAUSE word of exception code 23. -/
def EXC_WATCH : Nat := EXC_CODE 23

/-- `EXC_VCED`, the CAUSE word of exception code 31. -/
def EXC_VCED : Nat := EXC_CODE 31

/-- `EXC_SYSCALL`, the CAUSE word of exception code 8. -/
def EXC_SYSCALL : Nat := EXC_CODE 8

/-! ## Static tables -/

/-- One row of `sThreadIDNames`. -/
structure ThreadIDName where
  threadID : Nat
  name : String
  deriving DecidableEq, Repr

/-- Values of `enum ThreadID` that the table uses; the enum is declared in
another header, each enumerator carries its number in its name. -/
def THREAD_0 : Nat := 0
def THREAD_1_IDLE : Nat := 1
def THREAD_2 : Nat := 2
def THREAD_3_MAIN : Nat := 3
def THREAD_4_SOUND : Nat := 4
def THREAD_5_GAME_LOOP : Nat := 5
def THREAD_6_RUMBLE : Nat := 6
def THREAD_7_HVQM : Nat := 7
def THREAD_8_TIMEKEEPER : Nat := 8
def THREAD_9_DA_COUNTER : Nat := 9
def THREAD_1000_CRASH_SCREEN_0 : Nat := 1000
def THREAD_1001_CRASH_SCREEN_1 : Nat := 1001
def THREAD_1002_CRASH_SCREEN_2 : Nat := 1002

/-- The table `sThreadIDNames`. -/
def sThreadIDNames : List ThreadIDName := [
  { threadID := THREAD_0,                   name := "0" },
  { threadID := THREAD_1_IDLE,              name := "idle" },
  { threadID := THREAD_2,                   name := "2" },
  { threadID := THREAD_3_MAIN,              name := "main" },
  { threadID := THREAD_4_SOUND,             name := "sound" },
  { threadID := THREAD_5_GAME_LOOP,         name := "game loop" },
  { threadID := THREAD_6_RUMBLE,            name := "rumble" },
  { threadID := THREAD_7_HVQM,              name := "HVQM" },
  { threadID := THREAD_8_TIMEKEEPER,        name := "timekeeper" },
  { threadID := THREAD_9_DA_COUNTER,        name := "DA counter" },
  { threadID := THREAD_1000_CRASH_SCREEN_0, name := "Crash Screen 0" },
  { threadID := THREAD_1001_CRASH_SCREEN_1, name := "Crash Screen 1" },
  { threadID := THREAD_1002_CRASH_SCREEN_2, name := "Crash Screen 2" }]

/-- The table `sCauseDesc[18]`. -/
def sCauseDesc : List String := [
  /-EXC_INT    -/ "Interrupt",
  /-EXC_MOD    -/ "TLB modification",
  /-EXC_RMISS  -/ "TLB exception on load or inst.",
  /-EXC_WMISS  -/ "TLB exception on store",
  /-EXC_RADE   -/ "Address error on load or inst.",
  /-EXC_WADE   -/ "Address error on store",
  /-EXC_IBE    -/ "Bus error on inst.",
  /-EXC_DBE    -/ "Bus error on data",
  /-EXC_SYSCALL-/ "Failed Assert: See Assert Page",
  /-EXC_BREAK  -/ "Breakpoint exception",
  /-EXC_II     -/ "Reserved instruction",
  /-EXC_CPU    -/ "Coprocessor unusable",
  /-EXC_OV     -/ "Arithmetic overflow",
  /-EXC_TRAP   -/ "Trap exception",
  /-EXC_VCEI   -/ "Virtual coherency on inst.",
  /-EXC_FPE    -/ "Floating point exception",
  /-EXC_WATCH  -/ "Watchpoint exception",
  /-EXC_VCED   -/ "Virtual coherency on data"]

/-- The table `sFpcsrDesc[6]`. -/
def sFpcsrDesc : List String := [
  /-FPCSR_CE-/ "Unimplemented operation",
  /-FPCSR_CV-/ "Invalid operation",
  /-FPCSR_CZ-/ "Division by zero",
  /-FPCSR_CO-/ "Overflow",
  /-FPCSR_CU-/ "Underflow",
  /-FPCSR_CI-/ "Inexact operation"]

/-- The table `sRegNames[29]`. -/
def sRegNames : List String := [
  "AT", "V0", "V1",
  "A0", "A1", "A2",
  "A3", "T0", "T1",
  "T2", "T3", "T4",
  "T5", "T6", "T7",
  "S0", "S1", "S2",
  "S3", "S4", "S5",
  "S6", "S7", "T8",
  "T9", "GP", "SP",
  "S8", "RA"]

/-! ## Lookups -/

/-- The value of the local `cause` of `get_cause_desc` after its `switch`:
the whole argument is compared with `EXC_WATCH` and `EXC_VCED`, every other
argument is reduced to its exception code field. -/
def get_cause_desc_index (cause : Nat) : Nat :=
  if cause = EXC_WATCH then 16          -- case EXC_WATCH: cause = 16; break;
  else if cause = EXC_VCED then 17      -- case EXC_VCED:  cause = 17; break;
  else (cause >>> CAUSE_EXCSHIFT) &&& BITMASK 5  -- default

/-- `get_cause_desc`: a CAUSE description from `sCauseDesc`, `none` for
`NULL`. -/
def get_cause_desc (cause : Nat) : Option String :=
  let cause := get_cause_desc_index cause
  if cause < ARRAY_COUNT sCauseDesc then
    sCauseDesc[cause]?
  else
    none

/-- The `for` loop of `get_fpcsr_desc`: `left` iterations remain
(`ARRAY_COUNT(sFpcsrDesc) - i`), `i` and `bit` are the C locals. -/
def get_fpcsr_desc_loop (fpcsr : Nat) : Nat → Nat → Nat → Option String
  | 0, _, _ => none
  | left + 1, i, bit =>
    if fpcsr &&& bit ≠ 0 then
      sFpcsrDesc[i]?
    else
      get_fpcsr_desc_loop fpcsr left (i + 1) (bit >>> 1)

/-- `get_fpcsr_desc`: a FPCSR description from `sFpcsrDesc`, `none` for
`NULL`. -/
def get_fpcsr_desc (fpcsr : Nat) : Option String :=
  get_fpcsr_desc_loop fpcsr (ARRAY_COUNT sFpcsrDesc) 0 (BIT 17)

/-- The `for` loop of `get_thread_name_from_id`: the pointer `threadIDName`
is the part of the table that has not been visited yet. -/
def get_thread_name_from_id_loop (threadID : Nat) : List ThreadIDName → Option String
  | [] => none
  | threadIDName :: rest =>
    if threadIDName.threadID = threadID then
      some threadIDName.name
    else
      get_thread_name_from_id_loop threadID rest

/-- `get_thread_name_from_id`: a thread name from `sThreadIDNames`, `none`
for `NULL`. -/
def get_thread_name_from_id (threadID : Nat) : Option String :=
  get_thread_name_from_id_loop threadID sThreadIDNames

/-! ## The outside world -/

/-- The colours the page names (`COLOR_RGBA32_*`). -/
inductive Color
  | CRASH_VARIABLE
  | WHITE
  | CRASH_DESCRIPTION
  | CRASH_THREAD
  | CRASH_AT
  deriving DecidableEq, Repr

/-- One variadic argument of a `cs_print` call. -/
inductive Arg
  | color (c : Color)   -- the colour consumed by `STR_COLOR_PREFIX`
  | str (s : String)    -- `%s`
  | int (n : Nat)       -- `%d`, `%02d`
  | chr (c : Char)      -- `%c`
  | word (w : Nat)      -- `STR_HEX_WORD`
  | f32 (bits : Nat)    -- `% g`, `% .3e`: the float, given by its bit pattern
  deriving DecidableEq, Repr

/-- A symbol of the debug map, as returned by `get_map_symbol`. -/
abbrev MapSymbol := Nat

/-- One call of an external drawing primitive. -/
inductive Draw
  | print (x y : Nat) (fmt : String) (args : List Arg)                  -- `cs_print`
  | symbolName (x y maxWidth : Nat) (symbol : Option MapSymbol)         -- `cs_print_symbol_name`
  deriving DecidableEq, Repr

/-- What `page_context.c` takes from other headers and modules: string and
layout macros, enum constants, build options and the external
functions it calls. -/
structure Externals where
  STR_COLOR_PREFIX : String
  STR_HEX_WORD : String
  TEXT_X : Nat → Nat
  TEXT_Y : Nat → Nat
  TEXT_WIDTH : Nat → Nat
  CRASH_SCREEN_NUM_CHARS_X : Nat
  NUM_THREADS : Nat
  INCLUDE_DEBUG_MAP : Bool
  B_BUTTON : Nat
  SECTION_EXPANDED_DEFAULT : Int
  CS_OPT_GROUP_PAGE_CONTEXT : Nat
  CS_OPT_HEADER_PAGE_CONTEXT : Nat
  CS_OPT_CONTEXT_PARSE_REG : Nat
  CS_OPT_CONTEXT_FLOATS_FMT : Nat
  CS_OPT_END_CONTEXT : Nat
  /-- The number of characters `cs_print` reports for a call. -/
  cs_print : Nat → Nat → String → List Arg → Nat
  /-- The word `try_read_data` stores for an address, `none` when it fails. -/
  try_read_data : Nat → Option Nat
  /-- The result of `get_map_symbol(addr, SYMBOL_SEARCH_BACKWARD)`. -/
  get_map_symbol : Nat → Option MapSymbol

/-- The macro `STRLEN(s)`: the length of a string literal. -/
def STRLEN (s : String) : Nat := s.length

/-- The part of `__OSThreadContext` the page reads. -/
structure OSThreadContext where
  /-- The 64-bit slot `*(reg + i)` for `Register* reg = &tc->at`. -/
  gpr : Nat → Nat
  sr : Nat
  pc : Nat
  cause : Nat
  badvaddr : Nat
  fpcsr : Nat
  /-- The word `(osfp + k)->f.f_even` for `__OSfp* osfp = &tc->fp0`, as a bit
  pattern. -/
  fp : Nat → Nat

/-- The part of `OSThread` the page reads (`gCrashedThread`). -/
structure OSThread where
  /-- The identifier, as the value of the unsigned `enum ThreadID` it is
  assigned to. -/
  id : Nat
  context : OSThreadContext

/-! ## Settings -/

/-- Setting kinds (`CS_OPT_TYPE_*`). -/
inductive CSOptType
  | CS_OPT_TYPE_HEADER
  | CS_OPT_TYPE_SETTING
  | CS_OPT_TYPE_END
  deriving DecidableEq, Repr

/-- The fields of `struct CSSetting` written by the initialisers of
`cs_settings_group_page_context`. -/
structure CSSetting where
  type : CSOptType
  name : String := ""
  valNames : String := ""
  val : Int := 0
  defaultVal : Int := 0
  lowerBound : Int := 0
  upperBound : Int := 0
  deriving DecidableEq, Repr

/-- Modelled from the spec: `enum CSPrintNumberFormats` is declared in another
header; the spec lists the formats as hex, decimal, scientific, and the
setting is declared with bounds `[PRINT_NUM_FMT_HEX, PRINT_NUM_FMT_SCI]` and
`PRINT_NUM_FMT_DEC` between them. -/
def PRINT_NUM_FMT_HEX : Int := 0
def PRINT_NUM_FMT_DEC : Int := 1
def PRINT_NUM_FMT_SCI : Int := 2

/-- Values `FALSE` and `TRUE`. -/
def FALSE : Int := 0
def TRUE : Int := 1

/-- The initialisers of `cs_settings_group_page_context[]`, each with its
designated index, in source order. -/
def cs_settings_group_page_context (E : Externals) : List (Nat × CSSetting) :=
  [(E.CS_OPT_HEADER_PAGE_CONTEXT,
    { type := .CS_OPT_TYPE_HEADER, name := "CONTEXT", valNames := "gValNames_bool",
      val := E.SECTION_EXPANDED_DEFAULT, defaultVal := E.SECTION_EXPANDED_DEFAULT,
      lowerBound := FALSE, upperBound := TRUE })] ++
  (if E.INCLUDE_DEBUG_MAP then
    [(E.CS_OPT_CONTEXT_PARSE_REG,
      { type := .CS_OPT_TYPE_SETTING, name := "Parse register addr names",
        valNames := "gValNames_bool", val := FALSE, defaultVal := FALSE,
        lowerBound := FALSE, upperBound := TRUE })]
  else []) ++
  [(E.CS_OPT_CONTEXT_FLOATS_FMT,
    { type := .CS_OPT_TYPE_SETTING, name := "Floats print format",
      valNames := "gValNames_print_num_fmt", val := PRINT_NUM_FMT_DEC,
      defaultVal := PRINT_NUM_FMT_DEC, lowerBound := PRINT_NUM_FMT_HEX,
      upperBound := PRINT_NUM_FMT_SCI }),
   (E.CS_OPT_END_CONTEXT, { type := .CS_OPT_TYPE_END })]

/-- The settings of all pages: group, then index in the group. -/
abbrev Settings := Nat → Nat → CSSetting

/-- Modelled from the spec: `cs_get_setting_val` is defined in another module;
`getSettingValue(group, key) -> value`. -/
def cs_get_setting_val (S : Settings) (groupID settingID : Nat) : Int :=
  (S groupID settingID).val

/-- Modelled from the spec: wrapping of a value into the inclusive range
`[lowerBound, upperBound]`, by the remainder modulo the number of values of
the range. -/
def wrapSetting (lowerBound upperBound x : Int) : Int :=
  lowerBound + (x - lowerBound) % (upperBound - lowerBound + 1)

/-- Modelled from the spec: `cs_inc_setting` is defined in another module;
`incrementSetting(group, key, step) -> newValue` wraps within
`[lowerBound, upperBound]`, the direction given by the sign of the step, and
writes the addressed setting's value only. -/
def cs_inc_setting (S : Settings) (groupID settingID : Nat) (inc : Int) : Settings :=
  fun g k =>
    if g = groupID ∧ k = settingID then
      { S g k with val := wrapSetting (S g k).lowerBound (S g k).upperBound ((S g k).val + inc) }
    else
      S g k

/-! ## Register printers -/

/-- `cs_context_print_reg`: print a fixed-point register. -/
def cs_context_print_reg (E : Externals) (S : Settings) (x y : Nat) (name : String)
    (val : Nat) : List Draw :=
  -- "[register name]:"
  let fmt := " " ++ E.STR_COLOR_PREFIX ++ "%s:"
  let args := [Arg.color .CRASH_VARIABLE, Arg.str name]
  let charX := E.cs_print x y fmt args
  let symbol : Option MapSymbol :=
    if E.INCLUDE_DEBUG_MAP = true ∧
        cs_get_setting_val S E.CS_OPT_GROUP_PAGE_CONTEXT E.CS_OPT_CONTEXT_PARSE_REG ≠ 0 then
      E.get_map_symbol val
    else
      none
  Draw.print x y fmt args ::
    match symbol with
    | some symbol =>
      -- "[symbol name]"
      [Draw.symbolName (u32 (x + E.TEXT_WIDTH charX)) y 10 (some symbol)]
    | none =>
      -- "[XXXXXXXX]"
      [Draw.print (u32 (x + E.TEXT_WIDTH (u32 (charX + STRLEN " ")))) y
        (E.STR_COLOR_PREFIX ++ E.STR_HEX_WORD) [Arg.color .WHITE, Arg.word val]]

/-- How a loop nest of a printing function stands after an inner loop: the
inner loop ran to its end, or the function returned from inside it. -/
inductive LoopExit (σ ρ : Type)
  | finished (state : σ)
  | returned (result : ρ)

/-- The inner loop `for (u32 x = 0; x < columns; x++)` of
`cs_context_print_registers` for row `y`: `left` is `columns - x`, the state
is `regNum` and what has been drawn. -/
def cs_context_print_registers_x (E : Externals) (S : Settings) (tc : OSThreadContext)
    (columnWidth line y : Nat) :
    Nat → Nat → Nat → List Draw → LoopExit (Nat × List Draw) (Nat × List Draw)
  | 0, _, regNum, out => .finished (regNum, out)
  | left + 1, x, regNum, out =>
    if h : regNum ≥ ARRAY_COUNT sRegNames then
      .returned (u32 (line + y), out)
    else
      cs_context_print_registers_x E S tc columnWidth line y left (x + 1) (regNum + 1)
        (out ++ cs_context_print_reg E S (E.TEXT_X (x * columnWidth)) (E.TEXT_Y (u32 (line + y)))
          (sRegNames.get ⟨regNum, Nat.lt_of_not_le h⟩)
          (u32 (tc.gpr regNum)))  -- the `Register` slot, converted to `Word val`

/-- The outer loop `for (u32 y = 0; y < rows; y++)` of
`cs_context_print_registers`: `left` is `rows - y`. -/
def cs_context_print_registers_y (E : Externals) (S : Settings) (tc : OSThreadContext)
    (rows columns columnWidth line : Nat) :
    Nat → Nat → Nat → List Draw → Nat × List Draw
  | 0, _, _, out => (u32 (line + rows), out)
  | left + 1, y, regNum, out =>
    match cs_context_print_registers_x E S tc columnWidth line y columns 0 regNum out with
    | .returned r => r
    | .finished (regNum, out) =>
      cs_context_print_registers_y E S tc rows columns columnWidth line left (y + 1) regNum out

/-- `cs_context_print_registers`: print important fixed-point registers.
The result is the returned line and what has been drawn. -/
def cs_context_print_registers (E : Externals) (S : Settings) (line : Nat)
    (tc : OSThreadContext) : Nat × List Draw :=
  let rows := 10
  let columns := 3
  let columnWidth := 15
  let regNum := 0
  let out :=
    cs_context_print_reg E S (E.TEXT_X (0 * columnWidth)) (E.TEXT_Y line) "PC" tc.pc ++
    cs_context_print_reg E S (E.TEXT_X (1 * columnWidth)) (E.TEXT_Y line) "SR" tc.sr ++
    cs_context_print_reg E S (E.TEXT_X (2 * columnWidth)) (E.TEXT_Y line) "VA" tc.badvaddr
  let line := u32 (line + 1)
  let out := out ++
    match E.try_read_data tc.pc with
    | some data =>
      -- The raw data of the asm code that crashed.
      cs_context_print_reg E S (E.TEXT_X ((columns - 1) * columnWidth))
        (E.TEXT_Y (u32 (line + (rows - 1)))) "MM" data
    | none => []
  cs_context_print_registers_y E S tc rows columns columnWidth line rows 0 regNum out

/-! ## Float printers -/

/-- `cs_context_print_fpcsr`. -/
def cs_context_print_fpcsr (E : Externals) (x y fpcsr : Nat) : List Draw :=
  -- "FPCSR:[XXXXXXXX]"
  let fmt := E.STR_COLOR_PREFIX ++ "FPCSR: " ++ E.STR_COLOR_PREFIX ++ E.STR_HEX_WORD ++ " "
  let args := [Arg.color .CRASH_VARIABLE, Arg.color .WHITE, Arg.word fpcsr]
  let fpcsrSize := E.cs_print x y fmt args
  let x' := u32 (x + E.TEXT_WIDTH fpcsrSize)
  Draw.print x y fmt args ::
    match get_fpcsr_desc fpcsr with
    | some fpcsrDesc =>
      -- "([float exception description])"
      [Draw.print x' y (E.STR_COLOR_PREFIX ++ "(%s)")
        [Arg.color .CRASH_DESCRIPTION, Arg.str fpcsrDesc]]
    | none => []

/-- Modelled from the spec: the union `IEEE754_f32` is declared in another
header; a 32-bit pattern read as IEEE-754 single precision, the mantissa in
bits 0..22, the exponent in bits 23..30, the sign in bit 31. -/
structure IEEE754_f32 where
  asU32 : Nat
  deriving DecidableEq, Repr

/-- Field `mantissa` of `IEEE754_f32`. -/
def IEEE754_f32.mantissa (val : IEEE754_f32) : Nat := val.asU32 &&& BITMASK 23

/-- Field `exponent` of `IEEE754_f32`. -/
def IEEE754_f32.exponent (val : IEEE754_f32) : Nat := (val.asU32 >>> 23) &&& BITMASK 8

/-- Field `sign` of `IEEE754_f32`. -/
def IEEE754_f32.sign (val : IEEE754_f32) : Nat := (val.asU32 >>> 31) &&& BITMASK 1

/-- The character the local `prefix` of `cs_context_print_float_reg` holds
after the classification of the value. -/
def cs_context_print_float_reg_pfx (val : IEEE754_f32) : Char :=
  if val.mantissa ≠ 0 then
    if val.exponent = 0x00 then
      'D' -- Denormalized value.
    else if val.exponent = 0xFF then
      'N' -- NaN.
    else
      '\x00'
  else
    '\x00'

/-- `cs_context_print_float_reg`: print a floating-point register; `data` is
the bit pattern of `*data`. -/
def cs_context_print_float_reg (E : Externals) (S : Settings) (x y regNum data : Nat) :
    List Draw :=
  -- "[register name]:"
  let fmt := E.STR_COLOR_PREFIX ++ "F%02d:"
  let args := [Arg.color .CRASH_VARIABLE, Arg.int regNum]
  let charX := E.cs_print x y fmt args
  let x' := u32 (x + E.TEXT_WIDTH charX)
  let val : IEEE754_f32 := { asU32 := data }
  let pfx := cs_context_print_float_reg_pfx val
  Draw.print x y fmt args ::
    if pfx ≠ '\x00' then
      -- "[prefix][XXXXXXXX]"
      [Draw.print x' y ("%c" ++ E.STR_HEX_WORD) [Arg.chr pfx, Arg.word val.asU32]]
    else
      let floatsFormat :=
        cs_get_setting_val S E.CS_OPT_GROUP_PAGE_CONTEXT E.CS_OPT_CONTEXT_FLOATS_FMT
      if floatsFormat = PRINT_NUM_FMT_HEX then
        [Draw.print x' y (" " ++ E.STR_HEX_WORD) [Arg.word val.asU32]]  -- "[XXXXXXXX]"
      else if floatsFormat = PRINT_NUM_FMT_SCI then
        [Draw.print x' y "% .3e" [Arg.f32 val.asU32]]                   -- "[scientific notation]"
      else -- default, PRINT_NUM_FMT_DEC
        [Draw.print x' y "% g" [Arg.f32 val.asU32]]                     -- "[±][exponent]"

/-- The inner loop `for (u32 x = 0; x < 3; x++)` of
`cs_context_print_float_registers` for row `y`: `left` is `3 - x`, the state
is `regNum`, the index of `osfp` counted from `&tc->fp0`, and what has been
drawn. -/
def cs_context_print_float_registers_x (E : Externals) (S : Settings) (tc : OSThreadContext)
    (columnWidth line y : Nat) :
    Nat → Nat → Nat → Nat → List Draw → LoopExit (Nat × Nat × List Draw) (List Draw)
  | 0, _, regNum, osfp, out => .finished (regNum, osfp, out)
  | left + 1, x, regNum, osfp, out =>
    if regNum > 30 then
      .returned out
    else
      cs_context_print_float_registers_x E S tc columnWidth line y left (x + 1)
        (u32 (regNum + 2)) (osfp + 1)
        (out ++ cs_context_print_float_reg E S (E.TEXT_X (x * columnWidth))
          (E.TEXT_Y (u32 (line + y))) regNum (tc.fp osfp))

/-- The outer loop `for (u32 y = 0; y < 6; y++)` of
`cs_context_print_float_registers`: `left` is `6 - y`. -/
def cs_context_print_float_registers_y (E : Externals) (S : Settings) (tc : OSThreadContext)
    (columnWidth line : Nat) :
    Nat → Nat → Nat → Nat → List Draw → List Draw
  | 0, _, _, _, out => out
  | left + 1, y, regNum, osfp, out =>
    match cs_context_print_float_registers_x E S tc columnWidth line y 3 0 regNum osfp out with
    | .returned out => out
    | .finished (regNum, osfp, out) =>
      cs_context_print_float_registers_y E S tc columnWidth line left (y + 1) regNum osfp out

/-- `cs_context_print_float_registers`. -/
def cs_context_print_float_registers (E : Externals) (S : Settings) (line : Nat)
    (tc : OSThreadContext) : List Draw :=
  let columnWidth := 15
  let regNum := 0
  let osfp := 0
  let out := cs_context_print_fpcsr E (E.TEXT_X 0) (E.TEXT_Y line) tc.fpcsr
  let line := u32 (line + 1)
  cs_context_print_float_registers_y E S tc columnWidth line 6 0 regNum osfp out

/-! ## The page -/

/-- The cause line of `page_context_draw`, drawn at `line`. -/
def page_context_draw_cause (E : Externals) (line : Nat) (tc : OSThreadContext) : List Draw :=
  match get_cause_desc tc.cause with
  | some desc =>
    -- "CAUSE: ([exception cause description])"
    [Draw.print (E.TEXT_X 0) (E.TEXT_Y line) (E.STR_COLOR_PREFIX ++ "CAUSE:\t%s")
      [Arg.color .CRASH_DESCRIPTION, Arg.str desc]]
  | none => []

/-- The thread line of `page_context_draw`, drawn at `line`. -/
def page_context_draw_thread (E : Externals) (line threadID : Nat) : List Draw :=
  -- "THREAD: [thread id]"
  let fmt := E.STR_COLOR_PREFIX ++ "THREAD:\t%d"
  let args := [Arg.color .CRASH_THREAD, Arg.int threadID]
  let charX := E.cs_print (E.TEXT_X 0) (E.TEXT_Y line) fmt args
  Draw.print (E.TEXT_X 0) (E.TEXT_Y line) fmt args ::
    if threadID < E.NUM_THREADS then
      match get_thread_name_from_id threadID with
      | some threadName =>
        -- "(thread name)"
        [Draw.print (E.TEXT_X (u32 (charX + STRLEN " "))) (E.TEXT_Y line)
          (E.STR_COLOR_PREFIX ++ "(%s)") [Arg.color .CRASH_THREAD, Arg.str threadName]]
      | none => []
    else
      []

/-- The function line of `page_context_draw` (`#ifdef INCLUDE_DEBUG_MAP`),
drawn at `line`. -/
def page_context_draw_func (E : Externals) (line : Nat) (tc : OSThreadContext) : List Draw :=
  let symbol := E.get_map_symbol tc.pc
  -- "IN FUNC:"
  let fmt := E.STR_COLOR_PREFIX ++ "FUNC:\t"
  let args := [Arg.color .CRASH_AT]
  let charX := E.cs_print (E.TEXT_X 0) (E.TEXT_Y line) fmt args
  [Draw.print (E.TEXT_X 0) (E.TEXT_Y line) fmt args,
   Draw.symbolName (E.TEXT_X charX) (E.TEXT_Y line)
    (u32_sub E.CRASH_SCREEN_NUM_CHARS_X charX) symbol]

/-- `page_context_draw`: everything the page draws for the crashed thread. -/
def page_context_draw (E : Externals) (S : Settings) (gCrashedThread : OSThread) : List Draw :=
  let tc := gCrashedThread.context
  let line := 1
  let out := page_context_draw_cause E line tc
  let line := u32 (line + 1)
  let threadID := gCrashedThread.id
  let out := out ++ page_context_draw_thread E line threadID
  let line := u32 (line + 1)
  let (line, out) :=
    if E.INCLUDE_DEBUG_MAP then
      (u32 (line + 1), out ++ page_context_draw_func E line tc)
    else
      (line, out)
  let (line, regs) := cs_context_print_registers E S line tc
  let out := out ++ regs
  let line := u32 (line + 1)
  out ++ cs_context_print_float_registers E S line tc

/-- `page_context_input`: the settings after the page has seen the pressed
buttons of `gCSCompositeController`. -/
def page_context_input (E : Externals) (S : Settings) (buttonPressed : Nat) : Settings :=
  if buttonPressed &&& E.B_BUTTON ≠ 0 then
    -- Cycle floats print mode.
    cs_inc_setting S E.CS_OPT_GROUP_PAGE_CONTEXT E.CS_OPT_CONTEXT_FLOATS_FMT 1
  else
    S

/-! ## A sample configuration -/

/-- The settings at start-up: the page's group holds its initialisers, every
other slot is an end marker. -/
def initialSettings (E : Externals) : Settings :=
  fun g k =>
    if g = E.CS_OPT_GROUP_PAGE_CONTEXT then
      ((cs_settings_group_page_context E).lookup k).getD { type := .CS_OPT_TYPE_END }
    else
      { type := .CS_OPT_TYPE_END }

/-- A sample of the external declarations, used to evaluate the page on
concrete inputs: a build without debug map, ten threads counted by
`NUM_THREADS`, 6x10 pixel text cells, `cs_print` reporting the length of its
format, unreadable memory. -/
def sampleExternals : Externals where
  STR_COLOR_PREFIX := "@%08X"
  STR_HEX_WORD := "%08X"
  TEXT_X := fun numChars => 25 + numChars * 6
  TEXT_Y := fun numChars => 20 + numChars * 10
  TEXT_WIDTH := fun numChars => numChars * 6
  CRASH_SCREEN_NUM_CHARS_X := 45
  NUM_THREADS := 10
  INCLUDE_DEBUG_MAP := false
  B_BUTTON := 0x4000
  SECTION_EXPANDED_DEFAULT := 1
  CS_OPT_GROUP_PAGE_CONTEXT := 4
  CS_OPT_HEADER_PAGE_CONTEXT := 0
  CS_OPT_CONTEXT_PARSE_REG := 3
  CS_OPT_CONTEXT_FLOATS_FMT := 1
  CS_OPT_END_CONTEXT := 2
  cs_print := fun _ _ fmt _ => fmt.length
  try_read_data := fun _ => none
  get_map_symbol := fun _ => none

/-- A sample thread context: register slot `i` holds the sign-extended
64-bit value `0xFFFFFFFF80000000 + i`, float slot `k` holds the pattern `k`. -/
def sampleContext : OSThreadContext where
  gpr := fun i => 0xFFFFFFFF80000000 + i
  sr := 0
  pc := 0x80246000
  cause := EXC_SYSCALL
  badvaddr := 0
  fpcsr := 0xA0000
  fp := fun k => k

/-- The floats format setting of the page in a settings store. -/
def floatsFmt (E : Externals) (S : Settings) : CSSetting :=
  S E.CS_OPT_GROUP_PAGE_CONTEXT E.CS_OPT_CONTEXT_FLOATS_FMT

/-! ## Reading a drawing -/

/-- The register numbers of the float cells of a drawing: a float cell starts
with the one print whose arguments are the variable colour and a number
(the label "F%02d:"). -/
def floatCellRegs (out : List Draw) : List Nat :=
  out.filterMap (fun d =>
    match d with
    | Draw.print _ _ _ [Arg.color .CRASH_VARIABLE, Arg.int regNum] => some regNum
    | _ => none)

/-- The thread names a drawing shows: the one print whose arguments are the
thread colour and a string (the text "(%s)" after the thread number). -/
def threadNamesShown (out : List Draw) : List String :=
  out.filterMap (fun d =>
    match d with
    | Draw.print _ _ _ [Arg.color .CRASH_THREAD, Arg.str threadName] => some threadName
    | _ => none)

/-- The thread numbers a drawing shows: the one print whose arguments are the
thread colour and a number (the text "THREAD:\t%d"). -/
def threadIDsShown (out : List Draw) : List Nat :=
  out.filterMap (fun d =>
    match d with
    | Draw.print _ _ _ [Arg.color .CRASH_THREAD, Arg.int threadID] => some threadID
    | _ => none)

/-! ## Bit lemmas -/

/-- Masking with a single bit is non-zero exactly when that bit is set. -/
theorem and_two_pow_ne_zero_iff (x k : Nat) : x &&& 2 ^ k ≠ 0 ↔ x.testBit k = true := by
  constructor
  · intro h
    obtain ⟨i, hi⟩ := Nat.ne_zero_implies_bit_true h
    rw [Nat.testBit_and, Nat.testBit_two_pow] at hi
    simp only [Bool.and_eq_true, decide_eq_true_eq] at hi
    rw [hi.2]
    exact hi.1
  · intro h h0
    have h1 : (x &&& 2 ^ k).testBit k = true := by
      rw [Nat.testBit_and, Nat.testBit_two_pow_self, h]
      rfl
    rw [h0, Nat.zero_testBit] at h1
    exact Bool.noConfusion h1

/-- The loop of `get_fpcsr_desc`, unrolled: a cascade over bits 17 down to
12. -/
theorem get_fpcsr_desc_cascade (fpcsr : Nat) :
    get_fpcsr_desc fpcsr =
      if fpcsr.testBit 17 = true then some "Unimplemented operation"
      else if fpcsr.testBit 16 = true then some "Invalid operation"
      else if fpcsr.testBit 15 = true then some "Division by zero"
      else if fpcsr.testBit 14 = true then some "Overflow"
      else if fpcsr.testBit 13 = true then some "Underflow"
      else if fpcsr.testBit 12 = true then some "Inexact operation"
      else none := by
  have h17 : fpcsr &&& 1 <<< 17 ≠ 0 ↔ fpcsr.testBit 17 = true :=
    and_two_pow_ne_zero_iff fpcsr 17
  have h16 : fpcsr &&& 1 <<< 17 >>> 1 ≠ 0 ↔ fpcsr.testBit 16 = true :=
    and_two_pow_ne_zero_iff fpcsr 16
  have h15 : fpcsr &&& 1 <<< 17 >>> 1 >>> 1 ≠ 0 ↔ fpcsr.testBit 15 = true :=
    and_two_pow_ne_zero_iff fpcsr 15
  have h14 : fpcsr &&& 1 <<< 17 >>> 1 >>> 1 >>> 1 ≠ 0 ↔ fpcsr.testBit 14 = true :=
    and_two_pow_ne_zero_iff fpcsr 14
  have h13 : fpcsr &&& 1 <<< 17 >>> 1 >>> 1 >>> 1 >>> 1 ≠ 0 ↔ fpcsr.testBit 13 = true :=
    and_two_pow_ne_zero_iff fpcsr 13
  have h12 : fpcsr &&& 1 <<< 17 >>> 1 >>> 1 >>> 1 >>> 1 >>> 1 ≠ 0 ↔ fpcsr.testBit 12 = true :=
    and_two_pow_ne_zero_iff fpcsr 12
  simp only [get_fpcsr_desc, ARRAY_COUNT, sFpcsrDesc, List.length_cons, List.length_nil,
    get_fpcsr_desc_loop, BIT, h17, h16, h15, h14, h13, h12]
  rfl

/-! ## FPCSR description -/

/-- C1: `get_fpcsr_desc` reports the highest set bit among bits 17..12 of a
32-bit `fpcsr`: `NULL` when none of them is set, otherwise the entry
`sFpcsrDesc[17 - k]` for the highest set bit `k` of that range; two words that
agree on bits 12..17 get the same result, whatever their other bits are. -/
theorem get_fpcsr_desc_highest_bit_wins (fpcsr : Nat) (_hf : fpcsr < 2 ^ 32) :
    ((∀ k, 12 ≤ k → k ≤ 17 → fpcsr.testBit k = false) → get_fpcsr_desc fpcsr = none) ∧
    (∀ k, 12 ≤ k → k ≤ 17 → fpcsr.testBit k = true →
      (∀ j, k < j → j ≤ 17 → fpcsr.testBit j = false) →
      get_fpcsr_desc fpcsr = sFpcsrDesc[17 - k]? ∧ (get_fpcsr_desc fpcsr).isSome = true) ∧
    (∀ other, other < 2 ^ 32 →
      (∀ k, 12 ≤ k → k ≤ 17 → other.testBit k = fpcsr.testBit k) →
      get_fpcsr_desc other = get_fpcsr_desc fpcsr) ∧
    sFpcsrDesc = ["Unimplemented operation", "Invalid operation", "Division by zero",
      "Overflow", "Underflow", "Inexact operation"] := by
  refine ⟨?_, ?_, ?_, rfl⟩
  · intro h
    rw [get_fpcsr_desc_cascade]
    simp [h 17 (by omega) (by omega), h 16 (by omega) (by omega), h 15 (by omega) (by omega),
      h 14 (by omega) (by omega), h 13 (by omega) (by omega), h 12 (by omega) (by omega)]
  · intro k hk1 hk2 hk hj
    rw [get_fpcsr_desc_cascade]
    have hk' : k = 12 ∨ k = 13 ∨ k = 14 ∨ k = 15 ∨ k = 16 ∨ k = 17 := by omega
    rcases hk' with rfl | rfl | rfl | rfl | rfl | rfl
    · simp [hk, hj 17 (by omega) (by omega), hj 16 (by omega) (by omega),
        hj 15 (by omega) (by omega), hj 14 (by omega) (by omega),
        hj 13 (by omega) (by omega), sFpcsrDesc]
    · simp [hk, hj 17 (by omega) (by omega), hj 16 (by omega) (by omega),
        hj 15 (by omega) (by omega), hj 14 (by omega) (by omega), sFpcsrDesc]
    · simp [hk, hj 17 (by omega) (by omega), hj 16 (by omega) (by omega),
        hj 15 (by omega) (by omega), sFpcsrDesc]
    · simp [hk, hj 17 (by omega) (by omega), hj 16 (by omega) (by omega), sFpcsrDesc]
    · simp [hk, hj 17 (by omega) (by omega), sFpcsrDesc]
    · simp [hk, sFpcsrDesc]
  · intro other _ h
    rw [get_fpcsr_desc_cascade, get_fpcsr_desc_cascade,
      h 17 (by omega) (by omega), h 16 (by omega) (by omega), h 15 (by omega) (by omega),
      h 14 (by omega) (by omega), h 13 (by omega) (by omega), h 12 (by omega) (by omega)]

/-- Witness of C1: a word with bits 17 and 19 set is described as
"Unimplemented operation". -/
theorem get_fpcsr_desc_highest_bit_wins_witness :
    (0xA0000 : Nat) < 2 ^ 32 ∧ (0xA0000 : Nat).testBit 17 = true ∧
      (0xA0000 : Nat).testBit 19 = true ∧
      get_fpcsr_desc 0xA0000 = some "Unimplemented operation" :=
  ⟨by decide, by decide, by decide,
    ((get_fpcsr_desc_highest_bit_wins 0xA0000 (by decide)).2.1 17 (by decide) (by decide)
      (by decide) (fun j h1 h2 => absurd h2 (by omega))).1.trans (by decide)⟩

/-! ## CAUSE description -/

/-- The table access of `get_cause_desc` stays inside `sCauseDesc`: the table
has 18 entries, a result other than `NULL` is the entry at the index computed
by the `switch`, and that index is below 18 whenever the table is read. -/
theorem get_cause_desc_in_bounds (cause : Nat) :
    ARRAY_COUNT sCauseDesc = 18 ∧
    (get_cause_desc_index cause < 18 →
      ∃ desc, sCauseDesc[get_cause_desc_index cause]? = some desc ∧
        get_cause_desc cause = some desc) ∧
    (¬ get_cause_desc_index cause < 18 → get_cause_desc cause = none) := by
  refine ⟨rfl, ?_, ?_⟩
  · intro h
    have hlen : get_cause_desc_index cause < sCauseDesc.length := h
    refine ⟨sCauseDesc[get_cause_desc_index cause], List.getElem?_eq_getElem hlen, ?_⟩
    simp only [get_cause_desc, ARRAY_COUNT, hlen, if_true]
    exact List.getElem?_eq_getElem hlen
  · intro h
    have hlen : ¬ get_cause_desc_index cause < sCauseDesc.length := h
    simp only [get_cause_desc, ARRAY_COUNT, hlen, if_false]

/-- The codes 18..22 and 24..30, and the codes 23 and 31 in a word other than
`EXC_WATCH` and `EXC_VCED`, have no description. -/
theorem get_cause_desc_none_of_code_ge_18 (cause : Nat) (hw : cause ≠ EXC_WATCH)
    (hv : cause ≠ EXC_VCED) (hcode : 18 ≤ (cause >>> 2) &&& 0x1F) :
    get_cause_desc cause = none := by
  apply (get_cause_desc_in_bounds cause).2.2
  simp only [get_cause_desc_index, hw, hv, if_false]
  change ¬ (cause >>> 2) &&& 0x1F < 18
  omega

/-- C2: every CAUSE word whose exception code field `(cause >> 2) & 0x1F` is
`c` with `c <= 15` is described by `sCauseDesc[c]`, never by `NULL`; the word
`EXC_WATCH` (code 23) is described by slot 16 and the word `EXC_VCED`
(code 31) by slot 17. -/
theorem get_cause_desc_valid_codes (cause c : Nat) (_hc : cause < 2 ^ 32) (h15 : c ≤ 15)
    (hcode : (cause >>> 2) &&& 0x1F = c) :
    (get_cause_desc cause = sCauseDesc[c]? ∧ (get_cause_desc cause).isSome = true) ∧
    (EXC_WATCH = 23 <<< 2 ∧ get_cause_desc EXC_WATCH = sCauseDesc[16]? ∧
      get_cause_desc EXC_WATCH = some "Watchpoint exception") ∧
    (EXC_VCED = 31 <<< 2 ∧ get_cause_desc EXC_VCED = sCauseDesc[17]? ∧
      get_cause_desc EXC_VCED = some "Virtual coherency on data") ∧
    (EXC_SYSCALL = 8 <<< 2 ∧
      get_cause_desc EXC_SYSCALL = some "Failed Assert: See Assert Page") := by
  refine ⟨?_, ⟨rfl, by decide, by decide⟩, ⟨rfl, by decide, by decide⟩, rfl, by decide⟩
  have hw : cause ≠ EXC_WATCH := by
    rintro rfl
    have : (EXC_WATCH >>> 2) &&& 0x1F = 23 := by decide
    omega
  have hv : cause ≠ EXC_VCED := by
    rintro rfl
    have : (EXC_VCED >>> 2) &&& 0x1F = 31 := by decide
    omega
  have hidx : get_cause_desc_index cause = c := by
    simp only [get_cause_desc_index, hw, hv, if_false]
    exact hcode
  obtain ⟨desc, h1, h2⟩ := (get_cause_desc_in_bounds cause).2.1 (by omega)
  rw [hidx] at h1
  rw [h2, h1]
  exact ⟨rfl, rfl⟩

/-- Witness of C2: the CAUSE word 0x80000820 (branch-delay bit and an
interrupt-pending bit set, exception code 8) is a failed assert. -/
theorem get_cause_desc_valid_codes_witness :
    (0x80000820 >>> 2) &&& 0x1F = 8 ∧
      get_cause_desc 0x80000820 = some "Failed Assert: See Assert Page" :=
  ⟨by decide,
    ((get_cause_desc_valid_codes 0x80000820 8 (by decide) (by decide) (by decide)).1.1).trans
      (by decide)⟩

/-- C3, the code at its failing input: the CAUSE words 0x5C and 0x8000005C
have the same exception code 23 (the second has the branch-delay bit set); the
first is described as a watchpoint exception, the second gets `NULL`.  The
same holds for code 31 with 0x7C and 0x8000007C. -/
theorem get_cause_desc_depends_on_other_bits :
    (0x5C >>> 2) &&& 0x1F = 23 ∧ (0x8000005C >>> 2) &&& 0x1F = 23 ∧
    get_cause_desc 0x5C = some "Watchpoint exception" ∧
    get_cause_desc 0x8000005C = none ∧
    (0x7C >>> 2) &&& 0x1F = 31 ∧ (0x8000007C >>> 2) &&& 0x1F = 31 ∧
    get_cause_desc 0x7C = some "Virtual coherency on data" ∧
    get_cause_desc 0x8000007C = none := by
  decide

/-- C4, the code at its failing input: the CAUSE words 0x40 and 0x44 carry
the reserved exception codes 16 and 17 and are described as a watchpoint
exception and a virtual coherency exception on data. -/
theorem get_cause_desc_reserved_codes_16_17 :
    (0x40 >>> 2) &&& 0x1F = 16 ∧ get_cause_desc 0x40 = some "Watchpoint exception" ∧
    (0x44 >>> 2) &&& 0x1F = 17 ∧
    get_cause_desc 0x44 = some "Virtual coherency on data" := by
  decide

/-! ## Thread names -/

/-- The loop of `get_thread_name_from_id` returns the name of the first entry
with the identifier. -/
theorem get_thread_name_from_id_loop_eq_find (threadID : Nat) (table : List ThreadIDName) :
    get_thread_name_from_id_loop threadID table =
      (table.find? (fun e => decide (e.threadID = threadID))).map (fun e => e.name) := by
  induction table with
  | nil => rfl
  | cons e rest ih =>
    by_cases h : e.threadID = threadID
    · simp [get_thread_name_from_id_loop, List.find?, h]
    · simp [get_thread_name_from_id_loop, List.find?, h, ih]

/-- The lookup in closed form: the 13 names, `NULL` for every other
identifier. -/
theorem get_thread_name_from_id_closed_form (threadID : Nat) :
    get_thread_name_from_id threadID =
      (if threadID = 0 then some "0"
       else if threadID = 1 then some "idle"
       else if threadID = 2 then some "2"
       else if threadID = 3 then some "main"
       else if threadID = 4 then some "sound"
       else if threadID = 5 then some "game loop"
       else if threadID = 6 then some "rumble"
       else if threadID = 7 then some "HVQM"
       else if threadID = 8 then some "timekeeper"
       else if threadID = 9 then some "DA counter"
       else if threadID = 1000 then some "Crash Screen 0"
       else if threadID = 1001 then some "Crash Screen 1"
       else if threadID = 1002 then some "Crash Screen 2"
       else none) := by
  simp only [get_thread_name_from_id, sThreadIDNames, get_thread_name_from_id_loop,
    THREAD_0, THREAD_1_IDLE, THREAD_2, THREAD_3_MAIN, THREAD_4_SOUND, THREAD_5_GAME_LOOP,
    THREAD_6_RUMBLE, THREAD_7_HVQM, THREAD_8_TIMEKEEPER, THREAD_9_DA_COUNTER,
    THREAD_1000_CRASH_SCREEN_0, THREAD_1001_CRASH_SCREEN_1, THREAD_1002_CRASH_SCREEN_2,
    @eq_comm Nat _ threadID]

/-- Every identifier with a name is at most 1002. -/
theorem le_1002_of_get_thread_name_from_id_isSome (threadID : Nat)
    (h : (get_thread_name_from_id threadID).isSome = true) : threadID ≤ 1002 := by
  rw [get_thread_name_from_id_closed_form] at h
  by_contra hgt
  have hne : ∀ n, n ≤ 1002 → (threadID = n ↔ False) :=
    fun n hn => ⟨fun heq => hgt (heq ▸ hn), False.elim⟩
  simp [hne] at h

/-- C6: `get_thread_name_from_id` is a total lookup: for every identifier it
returns the name of the first entry of `sThreadIDNames` with that identifier,
that is the 13 names for 0..9 and 1000..1002 and `NULL` for every other
identifier; no entry is shadowed, the identifiers of the table are pairwise
distinct. -/
theorem get_thread_name_from_id_total (threadID : Nat) :
    get_thread_name_from_id threadID =
      ((sThreadIDNames.find? (fun e => decide (e.threadID = threadID))).map
        (fun e => e.name)) ∧
    get_thread_name_from_id threadID =
      (if threadID = 0 then some "0"
       else if threadID = 1 then some "idle"
       else if threadID = 2 then some "2"
       else if threadID = 3 then some "main"
       else if threadID = 4 then some "sound"
       else if threadID = 5 then some "game loop"
       else if threadID = 6 then some "rumble"
       else if threadID = 7 then some "HVQM"
       else if threadID = 8 then some "timekeeper"
       else if threadID = 9 then some "DA counter"
       else if threadID = 1000 then some "Crash Screen 0"
       else if threadID = 1001 then some "Crash Screen 1"
       else if threadID = 1002 then some "Crash Screen 2"
       else none) ∧
    (sThreadIDNames.map (fun e => e.threadID)).Nodup ∧
    sThreadIDNames.length = 13 :=
  ⟨get_thread_name_from_id_loop_eq_find threadID sThreadIDNames,
    get_thread_name_from_id_closed_form threadID, by decide, rfl⟩

/-! ## Float cells -/

/-- The field `mantissa` is the word modulo `2^23`. -/
theorem IEEE754_f32_mantissa_eq (bits : Nat) :
    IEEE754_f32.mantissa { asU32 := bits } = bits % 2 ^ 23 :=
  Nat.and_pow_two_sub_one_eq_mod bits 23

/-- The field `exponent` is the word divided by `2^23`, modulo `2^8`. -/
theorem IEEE754_f32_exponent_eq (bits : Nat) :
    IEEE754_f32.exponent { asU32 := bits } = bits / 2 ^ 23 % 2 ^ 8 := by
  rw [← Nat.shiftRight_eq_div_pow]
  exact Nat.and_pow_two_sub_one_eq_mod (bits >>> 23) 8

/-- The classification of a float pattern by its exponent and mantissa. -/
theorem cs_context_print_float_reg_pfx_eq (bits : Nat) :
    cs_context_print_float_reg_pfx { asU32 := bits } =
      if bits / 2 ^ 23 % 2 ^ 8 = 0 ∧ bits % 2 ^ 23 ≠ 0 then 'D'
      else if bits / 2 ^ 23 % 2 ^ 8 = 0xFF ∧ bits % 2 ^ 23 ≠ 0 then 'N'
      else '\x00' := by
  unfold cs_context_print_float_reg_pfx
  rw [IEEE754_f32_mantissa_eq, IEEE754_f32_exponent_eq]
  split_ifs <;> first | rfl | tauto

/-- C5: the cell of a float register is its label followed by one print that
the pattern's exponent (bits 23..30) and mantissa (bits 0..22) select: the hex
word with the character 'D' for exponent 0 and a non-zero mantissa, the hex
word with 'N' for exponent 0xFF and a non-zero mantissa, and for every other
pattern the print of the floats format: the hex word for `PRINT_NUM_FMT_HEX`,
"% .3e" for `PRINT_NUM_FMT_SCI`, "% g" for every other value of the
setting. -/
theorem cs_context_print_float_reg_paths (E : Externals) (S : Settings)
    (x y regNum bits : Nat) (_hb : bits < 2 ^ 32) :
    cs_context_print_float_reg E S x y regNum bits =
      [Draw.print x y (E.STR_COLOR_PREFIX ++ "F%02d:")
        [Arg.color .CRASH_VARIABLE, Arg.int regNum],
       (if bits / 2 ^ 23 % 2 ^ 8 = 0 ∧ bits % 2 ^ 23 ≠ 0 then
          Draw.print
            (u32 (x + E.TEXT_WIDTH (E.cs_print x y (E.STR_COLOR_PREFIX ++ "F%02d:")
              [Arg.color .CRASH_VARIABLE, Arg.int regNum])))
            y ("%c" ++ E.STR_HEX_WORD) [Arg.chr 'D', Arg.word bits]
        else if bits / 2 ^ 23 % 2 ^ 8 = 0xFF ∧ bits % 2 ^ 23 ≠ 0 then
          Draw.print
            (u32 (x + E.TEXT_WIDTH (E.cs_print x y (E.STR_COLOR_PREFIX ++ "F%02d:")
              [Arg.color .CRASH_VARIABLE, Arg.int regNum])))
            y ("%c" ++ E.STR_HEX_WORD) [Arg.chr 'N', Arg.word bits]
        else if cs_get_setting_val S E.CS_OPT_GROUP_PAGE_CONTEXT E.CS_OPT_CONTEXT_FLOATS_FMT
            = PRINT_NUM_FMT_HEX then
          Draw.print
            (u32 (x + E.TEXT_WIDTH (E.cs_print x y (E.STR_COLOR_PREFIX ++ "F%02d:")
              [Arg.color .CRASH_VARIABLE, Arg.int regNum])))
            y (" " ++ E.STR_HEX_WORD) [Arg.word bits]
        else if cs_get_setting_val S E.CS_OPT_GROUP_PAGE_CONTEXT E.CS_OPT_CONTEXT_FLOATS_FMT
            = PRINT_NUM_FMT_SCI then
          Draw.print
            (u32 (x + E.TEXT_WIDTH (E.cs_print x y (E.STR_COLOR_PREFIX ++ "F%02d:")
              [Arg.color .CRASH_VARIABLE, Arg.int regNum])))
            y "% .3e" [Arg.f32 bits]
        else
          Draw.print
            (u32 (x + E.TEXT_WIDTH (E.cs_print x y (E.STR_COLOR_PREFIX ++ "F%02d:")
              [Arg.color .CRASH_VARIABLE, Arg.int regNum])))
            y "% g" [Arg.f32 bits])] := by
  unfold cs_context_print_float_reg
  simp only [cs_context_print_float_reg_pfx_eq]
  by_cases hD : bits / 2 ^ 23 % 2 ^ 8 = 0 ∧ bits % 2 ^ 23 ≠ 0
  · rw [if_pos hD, if_pos hD, if_pos (by decide)]
  · rw [if_neg hD, if_neg hD]
    by_cases hN : bits / 2 ^ 23 % 2 ^ 8 = 0xFF ∧ bits % 2 ^ 23 ≠ 0
    · rw [if_pos hN, if_pos hN, if_pos (by decide)]
    · rw [if_neg hN, if_neg hN, if_neg (by decide)]
      by_cases hH : cs_get_setting_val S E.CS_OPT_GROUP_PAGE_CONTEXT
          E.CS_OPT_CONTEXT_FLOATS_FMT = PRINT_NUM_FMT_HEX
      · rw [if_pos hH, if_pos hH]
      · rw [if_neg hH, if_neg hH]
        by_cases hS : cs_get_setting_val S E.CS_OPT_GROUP_PAGE_CONTEXT
            E.CS_OPT_CONTEXT_FLOATS_FMT = PRINT_NUM_FMT_SCI
        · rw [if_pos hS, if_pos hS]
        · rw [if_neg hS, if_neg hS]

/-- Witness of C5: the pattern 1 (exponent 0, mantissa 1) is printed as the
hex word with 'D'. -/
theorem cs_context_print_float_reg_paths_witness :
    (1 : Nat) < 2 ^ 32 ∧
    cs_context_print_float_reg sampleExternals (initialSettings sampleExternals) 25 30 2 1 =
      [Draw.print 25 30 "@%08XF%02d:" [Arg.color .CRASH_VARIABLE, Arg.int 2],
       Draw.print 91 30 "%c%08X" [Arg.chr 'D', Arg.word 1]] :=
  ⟨by decide,
    (cs_context_print_float_reg_paths sampleExternals (initialSettings sampleExternals)
      25 30 2 1 (by decide)).trans (by decide)⟩

/-! ## Register grid -/

/-- Adding to a reduced `u32` and reducing again is reducing the sum. -/
theorem u32_u32_add (a b : Nat) : u32 (u32 a + b) = u32 (a + b) := by
  unfold u32
  omega

/-- The loops of `cs_context_print_registers`, unrolled. -/
theorem cs_context_print_registers_unrolled (E : Externals) (S : Settings) (line : Nat)
    (tc : OSThreadContext) :
    cs_context_print_registers E S line tc =
      (u32 (u32 (line + 1) + 9),
        cs_context_print_reg E S (E.TEXT_X 0) (E.TEXT_Y line) "PC" tc.pc ++
        cs_context_print_reg E S (E.TEXT_X 15) (E.TEXT_Y line) "SR" tc.sr ++
        cs_context_print_reg E S (E.TEXT_X 30) (E.TEXT_Y line) "VA" tc.badvaddr ++
        (match E.try_read_data tc.pc with
          | some data =>
            cs_context_print_reg E S (E.TEXT_X 30) (E.TEXT_Y (u32 (u32 (line + 1) + 9))) "MM" data
          | none => []) ++
        sRegNames.enum.flatMap (fun p =>
          cs_context_print_reg E S (E.TEXT_X (p.1 % 3 * 15))
            (E.TEXT_Y (u32 (u32 (line + 1) + p.1 / 3))) p.2 (u32 (tc.gpr p.1)))) := by
  simp only [cs_context_print_registers, cs_context_print_registers_y,
    cs_context_print_registers_x, ARRAY_COUNT, sRegNames, List.enum, List.enumFrom,
    List.flatMap_cons, List.flatMap_nil, List.length_cons, List.length_nil, List.append_assoc,
    List.append_nil, ge_iff_le, Nat.reduceLeDiff, Nat.reduceAdd, Nat.reduceMul, Nat.reduceSub,
    Nat.reduceMod, Nat.reduceDiv, dite_false, dite_true, zero_add, Nat.zero_mul]
  rfl

/-- C8: `cs_context_print_registers` draws the PC/SR/VA row at line `L`,
then the "MM" cell when the word at `tc->pc` can be read, at column 2 of line
`L + 1 + 9`, then exactly 29 register cells: cell `i` carries the name
`sRegNames[i]` and the register slot `i` counted from `tc->at`, as the `Word`
of its low 32 bits, at column `i mod 3` (15 characters wide) and line
`L + 1 + i div 3` (in `u32` arithmetic).  In every build a cell is its name
followed by its value: the value as a hex word, or, when the debug map is
built in, register name parsing is switched on and the value has a symbol,
the name of that symbol.  The cells lie in the 10 x 3 grid, no two of them
share a position, and the position of "MM" is the one grid position without a
register cell.  The function returns line `L + 1 + 9`. -/
theorem cs_context_print_registers_grid (E : Externals) (S : Settings) (L : Nat)
    (tc : OSThreadContext) :
    (cs_context_print_registers E S L tc).2 =
      cs_context_print_reg E S (E.TEXT_X (0 * 15)) (E.TEXT_Y L) "PC" tc.pc ++
      cs_context_print_reg E S (E.TEXT_X (1 * 15)) (E.TEXT_Y L) "SR" tc.sr ++
      cs_context_print_reg E S (E.TEXT_X (2 * 15)) (E.TEXT_Y L) "VA" tc.badvaddr ++
      (match E.try_read_data tc.pc with
        | some data =>
          cs_context_print_reg E S (E.TEXT_X (2 * 15)) (E.TEXT_Y (u32 (L + 1 + 9))) "MM" data
        | none => []) ++
      sRegNames.enum.flatMap (fun p =>
        cs_context_print_reg E S (E.TEXT_X (p.1 % 3 * 15))
          (E.TEXT_Y (u32 (L + 1 + p.1 / 3))) p.2 (u32 (tc.gpr p.1))) ∧
    sRegNames = ["AT", "V0", "V1", "A0", "A1", "A2", "A3", "T0", "T1", "T2", "T3", "T4",
      "T5", "T6", "T7", "S0", "S1", "S2", "S3", "S4", "S5", "S6", "S7", "T8", "T9", "GP",
      "SP", "S8", "RA"] ∧
    sRegNames.length = 29 ∧
    (∀ x y name val, (cs_context_print_reg E S x y name val).head? =
      some (Draw.print x y (" " ++ E.STR_COLOR_PREFIX ++ "%s:")
        [Arg.color .CRASH_VARIABLE, Arg.str name])) ∧
    (∀ x y name val, E.INCLUDE_DEBUG_MAP = false →
      cs_context_print_reg E S x y name val =
        [Draw.print x y (" " ++ E.STR_COLOR_PREFIX ++ "%s:")
          [Arg.color .CRASH_VARIABLE, Arg.str name],
         Draw.print
          (u32 (x + E.TEXT_WIDTH (u32 (E.cs_print x y (" " ++ E.STR_COLOR_PREFIX ++ "%s:")
            [Arg.color .CRASH_VARIABLE, Arg.str name] + 1))))
          y (E.STR_COLOR_PREFIX ++ E.STR_HEX_WORD) [Arg.color .WHITE, Arg.word val]]) ∧
    (∀ x y name val,
      cs_context_print_reg E S x y name val =
        Draw.print x y (" " ++ E.STR_COLOR_PREFIX ++ "%s:")
            [Arg.color .CRASH_VARIABLE, Arg.str name] ::
          (if E.INCLUDE_DEBUG_MAP = true ∧
              cs_get_setting_val S E.CS_OPT_GROUP_PAGE_CONTEXT E.CS_OPT_CONTEXT_PARSE_REG ≠ 0
            then
              match E.get_map_symbol val with
              | some symbol =>
                [Draw.symbolName
                  (u32 (x + E.TEXT_WIDTH (E.cs_print x y (" " ++ E.STR_COLOR_PREFIX ++ "%s:")
                    [Arg.color .CRASH_VARIABLE, Arg.str name])))
                  y 10 (some symbol)]
              | none =>
                [Draw.print
                  (u32 (x + E.TEXT_WIDTH (u32 (E.cs_print x y
                    (" " ++ E.STR_COLOR_PREFIX ++ "%s:")
                    [Arg.color .CRASH_VARIABLE, Arg.str name] + 1))))
                  y (E.STR_COLOR_PREFIX ++ E.STR_HEX_WORD) [Arg.color .WHITE, Arg.word val]]
            else
              [Draw.print
                (u32 (x + E.TEXT_WIDTH (u32 (E.cs_print x y
                  (" " ++ E.STR_COLOR_PREFIX ++ "%s:")
                  [Arg.color .CRASH_VARIABLE, Arg.str name] + 1))))
                y (E.STR_COLOR_PREFIX ++ E.STR_HEX_WORD) [Arg.color .WHITE, Arg.word val]])) ∧
    (cs_context_print_registers E S L tc).1 = u32 (L + 1 + 9) ∧
    (∀ i, i < 29 → u32 (tc.gpr i) = tc.gpr i % 2 ^ 32) ∧
    (∀ i, i < 29 → i % 3 < 3 ∧ i / 3 < 10) ∧
    (∀ i j, i < 29 → j < 29 → i % 3 = j % 3 → u32 (L + 1 + i / 3) = u32 (L + 1 + j / 3) →
      i = j) ∧
    (∀ i, i < 29 → ¬ (i % 3 = 2 ∧ u32 (L + 1 + i / 3) = u32 (L + 1 + 9))) ∧
    (∀ c r, c < 3 → r < 10 → ¬ (c = 2 ∧ r = 9) → ∃ i, i < 29 ∧ i % 3 = c ∧ i / 3 = r) := by
  refine ⟨?_, rfl, rfl, ?_, ?_, ?_, ?_, ?_, ?_, ?_, ?_, ?_⟩
  · rw [cs_context_print_registers_unrolled]
    simp only [u32_u32_add]
  · intro x y name val
    rfl
  · intro x y name val hmap
    simp only [cs_context_print_reg, hmap, Bool.false_eq_true, false_and, if_false]
    rfl
  · intro x y name val
    unfold cs_context_print_reg
    by_cases hparse : E.INCLUDE_DEBUG_MAP = true ∧
        cs_get_setting_val S E.CS_OPT_GROUP_PAGE_CONTEXT E.CS_OPT_CONTEXT_PARSE_REG ≠ 0
    · simp only [if_pos hparse]
      cases E.get_map_symbol val <;> rfl
    · simp only [if_neg hparse]
      rfl
  · rw [cs_context_print_registers_unrolled]
    exact u32_u32_add (L + 1) 9
  · intro i _
    rfl
  · intro i hi
    omega
  · intro i j hi hj hc hr
    unfold u32 at hr
    omega
  · intro i hi
    unfold u32
    omega
  · intro c r hc hr hne
    refine ⟨3 * r + c, ?_, ?_, ?_⟩ <;> omega

/-! ## Float section -/

/-- The loops of `cs_context_print_float_registers`, unrolled. -/
theorem cs_context_print_float_registers_unrolled (E : Externals) (S : Settings) (line : Nat)
    (tc : OSThreadContext) :
    cs_context_print_float_registers E S line tc =
      cs_context_print_fpcsr E (E.TEXT_X 0) (E.TEXT_Y line) tc.fpcsr ++
      (List.range 16).flatMap (fun k =>
        cs_context_print_float_reg E S (E.TEXT_X (k % 3 * 15))
          (E.TEXT_Y (u32 (u32 (line + 1) + k / 3))) (2 * k) (tc.fp k)) := by
  have h : List.range 16 = [0, 1, 2, 3, 4, 5, 6, 7, 8, 9, 10, 11, 12, 13, 14, 15] := by decide
  rw [h]
  simp only [cs_context_print_float_registers, cs_context_print_float_registers_y,
    cs_context_print_float_registers_x,
    List.flatMap_cons, List.flatMap_nil, List.append_assoc,
    List.append_nil, gt_iff_lt, Nat.reduceLT, Nat.reduceAdd, Nat.reduceMul, Nat.reduceSub,
    Nat.reduceMod, Nat.reduceDiv, if_false, if_true, zero_add, Nat.zero_mul,
    show u32 2 = 2 from rfl, show u32 4 = 4 from rfl, show u32 6 = 6 from rfl,
    show u32 8 = 8 from rfl, show u32 10 = 10 from rfl, show u32 12 = 12 from rfl,
    show u32 14 = 14 from rfl, show u32 16 = 16 from rfl, show u32 18 = 18 from rfl,
    show u32 20 = 20 from rfl, show u32 22 = 22 from rfl, show u32 24 = 24 from rfl,
    show u32 26 = 26 from rfl, show u32 28 = 28 from rfl, show u32 30 = 30 from rfl,
    show u32 32 = 32 from rfl]

/-! ## Thread line and what a drawing shows -/

/-- A filter that finds nothing in each piece finds nothing in the pieces put
together. -/
theorem filterMap_flatMap_eq_nil {α β γ : Type} (g : β → Option γ) (f : α → List β)
    (l : List α) (h : ∀ a, (f a).filterMap g = []) : (l.flatMap f).filterMap g = [] := by
  induction l with
  | nil => rfl
  | cons a l ih => rw [List.flatMap_cons, List.filterMap_append, h a, ih, List.append_nil]

/-- A register cell shows no thread name. -/
theorem threadNamesShown_reg (E : Externals) (S : Settings) (x y : Nat) (name : String)
    (val : Nat) : threadNamesShown (cs_context_print_reg E S x y name val) = [] := by
  simp only [threadNamesShown, cs_context_print_reg]
  split <;> rfl

/-- A register cell shows no thread number. -/
theorem threadIDsShown_reg (E : Externals) (S : Settings) (x y : Nat) (name : String)
    (val : Nat) : threadIDsShown (cs_context_print_reg E S x y name val) = [] := by
  simp only [threadIDsShown, cs_context_print_reg]
  split <;> rfl

/-- A float cell shows no thread name. -/
theorem threadNamesShown_float_reg (E : Externals) (S : Settings) (x y regNum data : Nat) :
    threadNamesShown (cs_context_print_float_reg E S x y regNum data) = [] := by
  simp only [threadNamesShown, cs_context_print_float_reg]
  split_ifs <;> rfl

/-- A float cell shows no thread number. -/
theorem threadIDsShown_float_reg (E : Externals) (S : Settings) (x y regNum data : Nat) :
    threadIDsShown (cs_context_print_float_reg E S x y regNum data) = [] := by
  simp only [threadIDsShown, cs_context_print_float_reg]
  split_ifs <;> rfl

/-- A float cell is the cell of its register number. -/
theorem floatCellRegs_float_reg (E : Externals) (S : Settings) (x y regNum data : Nat) :
    floatCellRegs (cs_context_print_float_reg E S x y regNum data) = [regNum] := by
  simp only [floatCellRegs, cs_context_print_float_reg]
  split_ifs <;> rfl

/-- The FPCSR line shows no thread name. -/
theorem threadNamesShown_fpcsr (E : Externals) (x y fpcsr : Nat) :
    threadNamesShown (cs_context_print_fpcsr E x y fpcsr) = [] := by
  simp only [threadNamesShown, cs_context_print_fpcsr]
  split <;> rfl

/-- The FPCSR line shows no thread number. -/
theorem threadIDsShown_fpcsr (E : Externals) (x y fpcsr : Nat) :
    threadIDsShown (cs_context_print_fpcsr E x y fpcsr) = [] := by
  simp only [threadIDsShown, cs_context_print_fpcsr]
  split <;> rfl

/-- The FPCSR line is no float cell. -/
theorem floatCellRegs_fpcsr (E : Externals) (x y fpcsr : Nat) :
    floatCellRegs (cs_context_print_fpcsr E x y fpcsr) = [] := by
  simp only [floatCellRegs, cs_context_print_fpcsr]
  split <;> rfl

/-- The thread names of two drawings put together. -/
theorem threadNamesShown_append (a b : List Draw) :
    threadNamesShown (a ++ b) = threadNamesShown a ++ threadNamesShown b :=
  List.filterMap_append _ _ _

/-- The thread numbers of two drawings put together. -/
theorem threadIDsShown_append (a b : List Draw) :
    threadIDsShown (a ++ b) = threadIDsShown a ++ threadIDsShown b :=
  List.filterMap_append _ _ _

/-- The float cells of two drawings put together. -/
theorem floatCellRegs_append (a b : List Draw) :
    floatCellRegs (a ++ b) = floatCellRegs a ++ floatCellRegs b :=
  List.filterMap_append _ _ _

/-- The register section shows no thread name. -/
theorem threadNamesShown_registers (E : Externals) (S : Settings) (line : Nat)
    (tc : OSThreadContext) :
    threadNamesShown (cs_context_print_registers E S line tc).2 = [] := by
  have hgrid : ∀ (l : List (Nat × String)) (f : Nat × String → List Draw),
      (∀ p, threadNamesShown (f p) = []) → threadNamesShown (l.flatMap f) = [] :=
    fun l f h => filterMap_flatMap_eq_nil _ f l h
  rw [cs_context_print_registers_unrolled]
  simp only [threadNamesShown_append, threadNamesShown_reg, List.nil_append]
  rw [hgrid _ _ (fun p => threadNamesShown_reg E S _ _ _ _), List.append_nil]
  cases E.try_read_data tc.pc with
  | none => rfl
  | some data => exact threadNamesShown_reg E S _ _ _ _

/-- The register section shows no thread number. -/
theorem threadIDsShown_registers (E : Externals) (S : Settings) (line : Nat)
    (tc : OSThreadContext) :
    threadIDsShown (cs_context_print_registers E S line tc).2 = [] := by
  have hgrid : ∀ (l : List (Nat × String)) (f : Nat × String → List Draw),
      (∀ p, threadIDsShown (f p) = []) → threadIDsShown (l.flatMap f) = [] :=
    fun l f h => filterMap_flatMap_eq_nil _ f l h
  rw [cs_context_print_registers_unrolled]
  simp only [threadIDsShown_append, threadIDsShown_reg, List.nil_append]
  rw [hgrid _ _ (fun p => threadIDsShown_reg E S _ _ _ _), List.append_nil]
  cases E.try_read_data tc.pc with
  | none => rfl
  | some data => exact threadIDsShown_reg E S _ _ _ _

/-- The float section shows no thread name. -/
theorem threadNamesShown_float_registers (E : Externals) (S : Settings) (line : Nat)
    (tc : OSThreadContext) :
    threadNamesShown (cs_context_print_float_registers E S line tc) = [] := by
  have hgrid : ∀ (l : List Nat) (f : Nat → List Draw),
      (∀ k, threadNamesShown (f k) = []) → threadNamesShown (l.flatMap f) = [] :=
    fun l f h => filterMap_flatMap_eq_nil _ f l h
  rw [cs_context_print_float_registers_unrolled, threadNamesShown_append,
    threadNamesShown_fpcsr, hgrid _ _ (fun k => threadNamesShown_float_reg E S _ _ _ _)]
  rfl

/-- The float section shows no thread number. -/
theorem threadIDsShown_float_registers (E : Externals) (S : Settings) (line : Nat)
    (tc : OSThreadContext) :
    threadIDsShown (cs_context_print_float_registers E S line tc) = [] := by
  have hgrid : ∀ (l : List Nat) (f : Nat → List Draw),
      (∀ k, threadIDsShown (f k) = []) → threadIDsShown (l.flatMap f) = [] :=
    fun l f h => filterMap_flatMap_eq_nil _ f l h
  rw [cs_context_print_float_registers_unrolled, threadIDsShown_append,
    threadIDsShown_fpcsr, hgrid _ _ (fun k => threadIDsShown_float_reg E S _ _ _ _)]
  rfl

/-- The sections of `page_context_draw`, in order: cause line, thread line
(on line 2), function line (debug-map builds), registers, float section. -/
theorem page_context_draw_sections (E : Externals) (S : Settings) (th : OSThread) :
    ∃ funcPart line line',
      page_context_draw E S th =
        page_context_draw_cause E 1 th.context ++ page_context_draw_thread E 2 th.id ++
          funcPart ++ (cs_context_print_registers E S line th.context).2 ++
          cs_context_print_float_registers E S line' th.context ∧
      (funcPart = [] ∨ funcPart = page_context_draw_func E 3 th.context) := by
  cases hmap : E.INCLUDE_DEBUG_MAP with
  | false =>
    refine ⟨[], 3, u32 ((cs_context_print_registers E S 3 th.context).1 + 1), ?_, Or.inl rfl⟩
    simp only [page_context_draw, hmap, List.append_nil]
    rfl
  | true =>
    refine ⟨page_context_draw_func E 3 th.context, 4,
      u32 ((cs_context_print_registers E S 4 th.context).1 + 1), ?_, Or.inr rfl⟩
    simp only [page_context_draw, hmap]
    rfl

/-- The thread numbers and thread names that the thread line shows. -/
theorem page_context_draw_thread_shown (E : Externals) (line threadID : Nat) :
    threadIDsShown (page_context_draw_thread E line threadID) = [threadID] ∧
    threadNamesShown (page_context_draw_thread E line threadID) =
      if threadID < E.NUM_THREADS then (get_thread_name_from_id threadID).toList else [] := by
  unfold page_context_draw_thread
  by_cases h : threadID < E.NUM_THREADS
  · simp only [h, if_true]
    cases get_thread_name_from_id threadID with
    | none => exact ⟨rfl, rfl⟩
    | some threadName => exact ⟨rfl, rfl⟩
  · simp only [h, if_false]
    exact ⟨rfl, rfl⟩

/-- What the whole page shows of the thread: its number, once, and its name
when the number is below `NUM_THREADS` and the lookup finds it. -/
theorem page_context_draw_thread_shown_on_page (E : Externals) (S : Settings)
    (th : OSThread) :
    threadIDsShown (page_context_draw E S th) = [th.id] ∧
    threadNamesShown (page_context_draw E S th) =
      if th.id < E.NUM_THREADS then (get_thread_name_from_id th.id).toList else [] := by
  obtain ⟨funcPart, line, line', hdraw, hfunc⟩ := page_context_draw_sections E S th
  have hcauseN : threadNamesShown (page_context_draw_cause E 1 th.context) = [] := by
    unfold page_context_draw_cause
    cases get_cause_desc th.context.cause <;> rfl
  have hcauseI : threadIDsShown (page_context_draw_cause E 1 th.context) = [] := by
    unfold page_context_draw_cause
    cases get_cause_desc th.context.cause <;> rfl
  have hfuncN : threadNamesShown funcPart = [] := by
    rcases hfunc with rfl | rfl <;> rfl
  have hfuncI : threadIDsShown funcPart = [] := by
    rcases hfunc with rfl | rfl <;> rfl
  obtain ⟨hI, hN⟩ := page_context_draw_thread_shown E 2 th.id
  rw [hdraw]
  constructor
  · simp only [threadIDsShown_append, hcauseI, hfuncI, hI, threadIDsShown_registers,
      threadIDsShown_float_registers, List.nil_append, List.append_nil]
  · simp only [threadNamesShown_append, hcauseN, hfuncN, hN, threadNamesShown_registers,
      threadNamesShown_float_registers, List.nil_append, List.append_nil]

/-- The thread line of `page_context_draw`, on line 2: it always prints the
numeric thread identifier, and it appends "(name)" exactly when the identifier
is below `NUM_THREADS` and `get_thread_name_from_id` returns a name for it.
Nothing else on the page shows a thread number or a thread name.  The name of
every identifier of the table is shown exactly when `NUM_THREADS` exceeds
1002. -/
theorem page_context_draw_thread_line (E : Externals) (S : Settings) (th : OSThread) :
    List.IsInfix (page_context_draw_thread E 2 th.id) (page_context_draw E S th) ∧
    page_context_draw_thread E 2 th.id =
      Draw.print (E.TEXT_X 0) (E.TEXT_Y 2) (E.STR_COLOR_PREFIX ++ "THREAD:\t%d")
          [Arg.color .CRASH_THREAD, Arg.int th.id] ::
        (if th.id < E.NUM_THREADS then
          match get_thread_name_from_id th.id with
          | some threadName =>
            [Draw.print
              (E.TEXT_X (u32 (E.cs_print (E.TEXT_X 0) (E.TEXT_Y 2)
                (E.STR_COLOR_PREFIX ++ "THREAD:\t%d")
                [Arg.color .CRASH_THREAD, Arg.int th.id] + 1)))
              (E.TEXT_Y 2) (E.STR_COLOR_PREFIX ++ "(%s)")
              [Arg.color .CRASH_THREAD, Arg.str threadName]]
          | none => []
        else []) ∧
    threadIDsShown (page_context_draw E S th) = [th.id] ∧
    threadNamesShown (page_context_draw E S th) =
      (if th.id < E.NUM_THREADS then (get_thread_name_from_id th.id).toList else []) ∧
    ((∀ id tc, (get_thread_name_from_id id).isSome = true →
        threadNamesShown (page_context_draw E S { id := id, context := tc }) =
          (get_thread_name_from_id id).toList) ↔ 1002 < E.NUM_THREADS) := by
  refine ⟨?_, rfl, (page_context_draw_thread_shown_on_page E S th).1,
    (page_context_draw_thread_shown_on_page E S th).2, ?_, ?_⟩
  · obtain ⟨funcPart, line, line', hdraw, _⟩ := page_context_draw_sections E S th
    refine ⟨page_context_draw_cause E 1 th.context,
      funcPart ++ (cs_context_print_registers E S line th.context).2 ++
        cs_context_print_float_registers E S line' th.context, ?_⟩
    rw [hdraw]
    simp only [List.append_assoc]
  · intro h
    have h2 := h 1002 th.context (by decide)
    rw [(page_context_draw_thread_shown_on_page E S { id := 1002, context := th.context }).2]
      at h2
    by_contra hle
    rw [if_neg hle] at h2
    exact absurd h2 (by decide)
  · intro hN id tc hsome
    have hle := le_1002_of_get_thread_name_from_id_isSome id hsome
    rw [(page_context_draw_thread_shown_on_page E S { id := id, context := tc }).2,
      if_pos (by show id < E.NUM_THREADS; omega)]

/-! ## Float section, as drawn -/

/-- C9 as stated fails: for the sample context at line 15 the float section
has 16 float cells, those of the even registers F00, F02, ..., F30, not 31;
no odd register has a cell. -/
theorem cs_context_print_float_registers_not_31_cells :
    floatCellRegs (cs_context_print_float_registers sampleExternals
        (initialSettings sampleExternals) 15 sampleContext) =
      [0, 2, 4, 6, 8, 10, 12, 14, 16, 18, 20, 22, 24, 26, 28, 30] ∧
    (floatCellRegs (cs_context_print_float_registers sampleExternals
        (initialSettings sampleExternals) 15 sampleContext)).length ≠ 31 := by
  decide

/-- C9, amended: the float section is the FPCSR line, with its description
when `get_fpcsr_desc` resolves, followed by one cell for each of the 16
even-numbered float registers F00, F02, ..., F30: cell `k` shows register
`2 * k`, the word `f.f_even` of slot `k` counted from `tc->fp0`, at column
`k mod 3` and line `L + 1 + k div 3` of the 6 x 3 grid that starts on the line
after the FPCSR line, drawn by `cs_context_print_float_reg`. -/
theorem cs_context_print_float_registers_section (E : Externals) (S : Settings) (L : Nat)
    (tc : OSThreadContext) :
    cs_context_print_float_registers E S L tc =
      cs_context_print_fpcsr E (E.TEXT_X 0) (E.TEXT_Y L) tc.fpcsr ++
      (List.range 16).flatMap (fun k =>
        cs_context_print_float_reg E S (E.TEXT_X (k % 3 * 15))
          (E.TEXT_Y (u32 (L + 1 + k / 3))) (2 * k) (tc.fp k)) ∧
    cs_context_print_fpcsr E (E.TEXT_X 0) (E.TEXT_Y L) tc.fpcsr =
      Draw.print (E.TEXT_X 0) (E.TEXT_Y L)
          (E.STR_COLOR_PREFIX ++ "FPCSR: " ++ E.STR_COLOR_PREFIX ++ E.STR_HEX_WORD ++ " ")
          [Arg.color .CRASH_VARIABLE, Arg.color .WHITE, Arg.word tc.fpcsr] ::
        (match get_fpcsr_desc tc.fpcsr with
          | some fpcsrDesc =>
            [Draw.print
              (u32 (E.TEXT_X 0 + E.TEXT_WIDTH (E.cs_print (E.TEXT_X 0) (E.TEXT_Y L)
                (E.STR_COLOR_PREFIX ++ "FPCSR: " ++ E.STR_COLOR_PREFIX ++ E.STR_HEX_WORD ++ " ")
                [Arg.color .CRASH_VARIABLE, Arg.color .WHITE, Arg.word tc.fpcsr])))
              (E.TEXT_Y L) (E.STR_COLOR_PREFIX ++ "(%s)")
              [Arg.color .CRASH_DESCRIPTION, Arg.str fpcsrDesc]]
          | none => []) ∧
    floatCellRegs (cs_context_print_float_registers E S L tc) =
      [0, 2, 4, 6, 8, 10, 12, 14, 16, 18, 20, 22, 24, 26, 28, 30] ∧
    (∀ k, k < 16 → k % 3 < 3 ∧ k / 3 < 6 ∧ 2 * k ≤ 30) ∧
    (∀ j k, j < 16 → k < 16 → j % 3 = k % 3 → u32 (L + 1 + j / 3) = u32 (L + 1 + k / 3) →
      j = k) := by
  refine ⟨?_, rfl, ?_, ?_, ?_⟩
  · rw [cs_context_print_float_registers_unrolled]
    simp only [u32_u32_add]
  · rw [cs_context_print_float_registers_unrolled,
      show List.range 16 = [0, 1, 2, 3, 4, 5, 6, 7, 8, 9, 10, 11, 12, 13, 14, 15] by decide]
    simp only [List.flatMap_cons, List.flatMap_nil, floatCellRegs_append, floatCellRegs_fpcsr,
      floatCellRegs_float_reg, List.nil_append, List.append_nil, List.cons_append,
      List.singleton_append, Nat.reduceMul]
  · intro k hk
    omega
  · intro j k hj hk hc hr
    unfold u32 at hr
    omega

/-! ## Input -/

/-- One step of the wrapped increment inside the bounds: the upper bound goes
to the lower bound, every other value to its successor. -/
theorem wrapSetting_succ (lo hi v : Int) (hlo : lo ≤ v) (hhi : v ≤ hi) :
    wrapSetting lo hi (v + 1) = if v = hi then lo else v + 1 := by
  unfold wrapSetting
  by_cases h : v = hi
  · rw [if_pos h, h, show hi + 1 - lo = hi - lo + 1 by omega, Int.emod_self]
    omega
  · rw [if_neg h, Int.emod_eq_of_lt (by omega) (by omega)]
    omega

/-- The settings after `k` presses of B, when the floats format starts inside
its bounds. -/
theorem page_context_input_iterate (E : Externals) (S : Settings) (buttonPressed : Nat)
    (hB : buttonPressed &&& E.B_BUTTON ≠ 0)
    (hlo : (floatsFmt E S).lowerBound ≤ (floatsFmt E S).val)
    (hhi : (floatsFmt E S).val ≤ (floatsFmt E S).upperBound) (k : Nat) :
    (fun T => page_context_input E T buttonPressed)^[k] S =
      fun g i =>
        if g = E.CS_OPT_GROUP_PAGE_CONTEXT ∧ i = E.CS_OPT_CONTEXT_FLOATS_FMT then
          { S g i with val :=
              (S g i).lowerBound +
                ((S g i).val - (S g i).lowerBound + k) %
                  ((S g i).upperBound - (S g i).lowerBound + 1) }
        else
          S g i := by
  unfold floatsFmt at hlo hhi
  induction k with
  | zero =>
    funext g i
    by_cases h : g = E.CS_OPT_GROUP_PAGE_CONTEXT ∧ i = E.CS_OPT_CONTEXT_FLOATS_FMT
    · obtain ⟨rfl, rfl⟩ := h
      simp only [Function.iterate_zero, id_eq, and_self, if_true, Nat.cast_zero, Int.add_zero]
      rw [Int.emod_eq_of_lt (by omega) (by omega),
        show ∀ a b : Int, a + (b - a) = b by intro a b; omega]
    · simp only [Function.iterate_zero, id_eq, h, if_false]
  | succ k ih =>
    rw [Function.iterate_succ_apply', ih]
    funext g i
    by_cases h : g = E.CS_OPT_GROUP_PAGE_CONTEXT ∧ i = E.CS_OPT_CONTEXT_FLOATS_FMT
    · obtain ⟨rfl, rfl⟩ := h
      simp only [page_context_input, hB, cs_inc_setting, wrapSetting, ne_eq, not_false_eq_true,
        if_true, and_self, Nat.cast_add, Nat.cast_one]
      congr 1
      rw [show ∀ a b : Int, a + b + 1 - a = b + 1 by intro a b; omega, Int.emod_add_emod]
      congr 2
      omega
    · simp only [page_context_input, hB, cs_inc_setting, ne_eq, not_false_eq_true, if_true, h,
        if_false]

/-- C10: with B in `buttonPressed`, `page_context_input` is one call
`cs_inc_setting(CS_OPT_GROUP_PAGE_CONTEXT, CS_OPT_CONTEXT_FLOATS_FMT, 1)`: no
other setting changes and of the floats format only the value does; without B
nothing changes.  The setting is declared with value and default
`PRINT_NUM_FMT_DEC` inside its bounds `[PRINT_NUM_FMT_HEX, PRINT_NUM_FMT_SCI]`.
With the wrapping increment and the value inside the bounds, a press moves the
value to its successor and from the upper bound to the lower bound, so with
the declared bounds the presses visit HEX, DEC, SCI, HEX, and
`upperBound - lowerBound + 1` presses give back the settings they started
from. -/
theorem page_context_input_cycles_floats_format (E : Externals) (S : Settings)
    (buttonPressed : Nat) (hB : buttonPressed &&& E.B_BUTTON ≠ 0) :
    page_context_input E S buttonPressed =
      cs_inc_setting S E.CS_OPT_GROUP_PAGE_CONTEXT E.CS_OPT_CONTEXT_FLOATS_FMT 1 ∧
    (∀ g i, ¬ (g = E.CS_OPT_GROUP_PAGE_CONTEXT ∧ i = E.CS_OPT_CONTEXT_FLOATS_FMT) →
      page_context_input E S buttonPressed g i = S g i) ∧
    { floatsFmt E (page_context_input E S buttonPressed) with val := (floatsFmt E S).val } =
      floatsFmt E S ∧
    (∀ released, released &&& E.B_BUTTON = 0 → page_context_input E S released = S) ∧
    ((E.CS_OPT_CONTEXT_FLOATS_FMT,
        ({ type := .CS_OPT_TYPE_SETTING, name := "Floats print format",
           valNames := "gValNames_print_num_fmt", val := PRINT_NUM_FMT_DEC,
           defaultVal := PRINT_NUM_FMT_DEC, lowerBound := PRINT_NUM_FMT_HEX,
           upperBound := PRINT_NUM_FMT_SCI } : CSSetting)) ∈
        cs_settings_group_page_context E ∧
      PRINT_NUM_FMT_HEX ≤ PRINT_NUM_FMT_DEC ∧ PRINT_NUM_FMT_DEC ≤ PRINT_NUM_FMT_SCI) ∧
    ((floatsFmt E S).lowerBound ≤ (floatsFmt E S).val →
      (floatsFmt E S).val ≤ (floatsFmt E S).upperBound →
      (floatsFmt E (page_context_input E S buttonPressed)).val =
        (if (floatsFmt E S).val = (floatsFmt E S).upperBound then (floatsFmt E S).lowerBound
         else (floatsFmt E S).val + 1) ∧
      ((floatsFmt E S).lowerBound = PRINT_NUM_FMT_HEX →
        (floatsFmt E S).upperBound = PRINT_NUM_FMT_SCI →
        (floatsFmt E (page_context_input E S buttonPressed)).val =
          (if (floatsFmt E S).val = PRINT_NUM_FMT_HEX then PRINT_NUM_FMT_DEC
           else if (floatsFmt E S).val = PRINT_NUM_FMT_DEC then PRINT_NUM_FMT_SCI
           else PRINT_NUM_FMT_HEX)) ∧
      (fun T => page_context_input E T buttonPressed)^[
          ((floatsFmt E S).upperBound - (floatsFmt E S).lowerBound + 1).toNat] S = S) := by
  have hstep : (floatsFmt E (page_context_input E S buttonPressed)).val =
      wrapSetting (floatsFmt E S).lowerBound (floatsFmt E S).upperBound
        ((floatsFmt E S).val + 1) := by
    simp only [floatsFmt, page_context_input, hB, cs_inc_setting, ne_eq, not_false_eq_true,
      if_true, and_self]
  refine ⟨?_, ?_, ?_, ?_, ⟨?_, by decide, by decide⟩, ?_⟩
  · simp only [page_context_input, hB, ne_eq, not_false_eq_true, if_true]
  · intro g i h
    simp only [page_context_input, hB, cs_inc_setting, ne_eq, not_false_eq_true, if_true, h,
      if_false]
  · simp only [floatsFmt, page_context_input, hB, cs_inc_setting, ne_eq, not_false_eq_true,
      if_true, and_self]
  · intro released h
    simp only [page_context_input, h, ne_eq, not_true_eq_false, if_false]
  · simp only [cs_settings_group_page_context, List.mem_append, List.mem_cons, true_or, or_true]
  · intro hlo hhi
    refine ⟨?_, ?_, ?_⟩
    · rw [hstep, wrapSetting_succ _ _ _ hlo hhi]
    · intro hl hu
      rw [hstep, wrapSetting_succ _ _ _ hlo hhi]
      rw [hl] at hlo
      rw [hu] at hhi
      rw [hl, hu]
      unfold PRINT_NUM_FMT_HEX at hlo ⊢
      unfold PRINT_NUM_FMT_SCI at hhi ⊢
      unfold PRINT_NUM_FMT_DEC
      split_ifs <;> omega
    · rw [page_context_input_iterate E S buttonPressed hB hlo hhi]
      unfold floatsFmt at hlo hhi ⊢
      funext g i
      by_cases h : g = E.CS_OPT_GROUP_PAGE_CONTEXT ∧ i = E.CS_OPT_CONTEXT_FLOATS_FMT
      · obtain ⟨rfl, rfl⟩ := h
        simp only [and_self, if_true]
        rw [Int.toNat_of_nonneg (by omega), Int.add_emod_self,
          Int.emod_eq_of_lt (by omega) (by omega),
          show ∀ a b : Int, a + (b - a) = b by intro a b; omega]
      · simp only [h, if_false]

/-- Witness of C10: from the initial settings (floats format DEC, bounds HEX
and SCI) one press of B gives SCI, and three presses give back the initial
settings. -/
theorem page_context_input_cycles_floats_format_witness :
    (0x4000 : Nat) &&& sampleExternals.B_BUTTON ≠ 0 ∧
    (floatsFmt sampleExternals (initialSettings sampleExternals)).val = PRINT_NUM_FMT_DEC ∧
    (floatsFmt sampleExternals
      (page_context_input sampleExternals (initialSettings sampleExternals) 0x4000)).val =
      PRINT_NUM_FMT_SCI ∧
    (fun T => page_context_input sampleExternals T 0x4000)^[3]
      (initialSettings sampleExternals) = initialSettings sampleExternals :=
  ⟨by decide, by decide,
    ((page_context_input_cycles_floats_format sampleExternals (initialSettings sampleExternals)
      0x4000 (by decide)).2.2.2.2.2 (by decide) (by decide)).1.trans (by decide),
    ((page_context_input_cycles_floats_format sampleExternals (initialSettings sampleExternals)
      0x4000 (by decide)).2.2.2.2.2 (by decide) (by decide)).2.2⟩

end PageContext
